import Mathlib

/-
Verification of the python_ifconfig repository (three drafts of one tool:
if_8.py, if_8v2.py, if_v4.py) against its natural-language specification.

The Python sources are shallowly embedded below.  Pure string/number
manipulation is translated directly; OS effects (netifaces queries, the
MTU ioctl, sysfs and /proc/net/dev reads, the platform test) are supplied
by an explicit `Env` record whose fields return `Except`/`Option` values:
`.error`/`none` models the corresponding Python exception being raised.
`print` output is modelled as the list of printed lines, in order.

Python floats: `format_bytes` converts the byte count to a float and
repeatedly divides by 1024.  For inputs below 2^53 the conversion is
exact, and every division by 1024 of a value that is at least 1 is exact
in binary floating point, so after `i` divisions the double holds the
exact rational size/1024^i.  The embedding therefore computes with that
exact fraction in integer arithmetic: the loop guard
`readable_size >= 1024` becomes `1024^(i+1) <= size`, and Python's
`"%.1f"` — which rounds the double's exact value to one fractional
digit, ties to even — becomes the half-to-even rounding of the integer
fraction `10*size / 1024^i`, implemented by `rndFrac`.

The frozen string operations (`pySplitColon`, `pySplitWs`, `pyStrip`,
`pyInt`, ...) re-implement the Python primitives structurally over the
character list of the string so that concrete runs reduce inside the
kernel; each carries a note of the Python construct it models.
-/

namespace PyIfconfig

/-- ANSI reset escape, `Colors.RESET` of if_v4.py / `RESET_COLOR` of
if_8.py and if_8v2.py (color output is on by default in every draft). -/
def RESET : String := "\x1b[0m"

/-- ANSI grey escape, `Colors.GREY` / `GREY_COLOR`. -/
def GREY : String := "\x1b[38;5;250m"

/-- ANSI sepia escape, `Colors.SEPIA` / `SEP_COLOR`. -/
def SEPIA : String := "\x1b[38;5;130m"

/-- ANSI red escape, `Colors.RED` of if_v4.py. -/
def RED : String := "\x1b[31m"

/-- Split a character list at every separator character (the characters
satisfying `p`), keeping empty pieces: the semantics of Python
`s.split(sep)` for a one-character `sep`.  The result is never empty. -/
def splitOnP (p : Char → Bool) : List Char → List (List Char)
  | [] => [[]]
  | c :: cs =>
      let r := splitOnP p cs
      if p c then [] :: r
      else (c :: r.headD []) :: r.tail

/-- Python `s.split(":")`: split at every colon, keeping empty pieces. -/
def pySplitColon (s : String) : List String :=
  (splitOnP (fun c => c = ':') s.data).map (fun l => (⟨l⟩ : String))

/-- Python `f.readlines()` seen through the loop bodies, which strip or
whitespace-split each line: splitting the file contents at newlines. -/
def pySplitLines (s : String) : List String :=
  (splitOnP (fun c => c = '\n') s.data).map (fun l => (⟨l⟩ : String))

/-- Python `s.split()` with no argument: split on whitespace runs,
dropping empty tokens. -/
def pySplitWs (s : String) : List String :=
  ((splitOnP Char.isWhitespace s.data).map (fun l => (⟨l⟩ : String))).filter (fun t => t ≠ "")

/-- Python `s.strip()`: drop leading and trailing whitespace. -/
def pyStrip (s : String) : String :=
  ⟨((s.data.dropWhile Char.isWhitespace).reverse.dropWhile Char.isWhitespace).reverse⟩

/-- Python `s.startswith(pre)`. -/
def pyStartsWith (s p : String) : Bool :=
  p.data.isPrefixOf s.data

/-- Decimal digits to a number, `none` on an empty list or any
non-digit. -/
def parseDigitsGo : List Char → Nat → Option Nat
  | [], acc => some acc
  | c :: cs, acc =>
      if c.isDigit then parseDigitsGo cs (acc * 10 + (c.toNat - 48)) else none

/-- Python `int(s)` on the token shapes this program meets: an optional
sign followed by one or more decimal digits parses, anything else raises
ValueError (modelled as `none`).  (Real `int()` additionally tolerates
surrounding whitespace and underscores between digits; the callers here
feed it whitespace-split tokens or the pre-stripped sysfs read, so the
difference is not observable.) -/
def pyInt (s : String) : Option Int :=
  match s.data with
  | [] => none
  | '-' :: rest =>
      if rest.isEmpty then none else (parseDigitsGo rest 0).map (fun n => -(n : Int))
  | '+' :: rest =>
      if rest.isEmpty then none else (parseDigitsGo rest 0).map (fun n => (n : Int))
  | l => (parseDigitsGo l 0).map (fun n => (n : Int))

/-- `config.BYTE_UNITS` of if_v4.py, identical to the local `units` list
of `format_bytes` in if_8.py and if_8v2.py. -/
def BYTE_UNITS : List String := ["B", "KiB", "MiB", "GiB", "TiB"]

/-- Round the exact fraction `num / den` (with `den > 0`) to the nearest
integer, ties to even: the rounding `"%.1f"` applies to the value times
ten. -/
def rndFrac (num den : ℤ) : ℤ :=
  let f := num.fdiv den
  let r := num - den * f
  if 2 * r < den then f
  else if den < 2 * r then f + 1
  else if f % 2 = 0 then f else f + 1

/-- The `while readable_size >= 1024 and unit_index < len(units) - 1`
loop of `format_bytes`, returning the final `unit_index`.  After `i`
iterations `readable_size` holds exactly `size / 1024^i` (see the header
note), so the guard `readable_size >= 1024` is `1024^(i+1) <= size`.
Each iteration increments `unit_index`, so the guard bounds the iteration
count by `len(units) - 1`; passing that number as structural fuel makes
the recursion total without changing behaviour. -/
def format_bytes_units : Nat → ℤ → Nat → Nat
  | 0, _, i => i
  | fuel + 1, size, i =>
      if 1024 ^ (i + 1) ≤ size ∧ i < BYTE_UNITS.length - 1 then
        format_bytes_units fuel size (i + 1)
      else i

/-- Python `f"{v:.1f}"` where the value `v` equals `t` tenths exactly:
sign, integer part, a dot, and exactly one fractional digit. -/
def fmtTenths (t : ℤ) : String :=
  (if t < 0 then "-" else "") ++ toString (t.natAbs / 10) ++ "." ++ toString (t.natAbs % 10)

/-- `format_bytes` of if_v4.py (lines 53-63), identical to `format_bytes`
of if_8.py (12-22) and if_8v2.py (13-23).  The final `readable_size` is
exactly `size / 1024^i`, so its `"%.1f"` rendering is the half-to-even
rounding of `10 * size / 1024^i` rendered as tenths. -/
def format_bytes (size : ℤ) : String :=
  let i := format_bytes_units (BYTE_UNITS.length - 1) size 0
  fmtTenths (rndFrac (10 * size) (1024 ^ i)) ++ " " ++ BYTE_UNITS.getD i ""

example : format_bytes 0 = "0.0 B" := by decide
example : format_bytes 1023 = "1023.0 B" := by decide
example : format_bytes 1024 = "1.0 KiB" := by decide
example : format_bytes 1536 = "1.5 KiB" := by decide
example : format_bytes (1024 ^ 4) = "1.0 TiB" := by decide
example : format_bytes (1024 ^ 5) = "1024.0 TiB" := by decide
example : format_bytes 100 = "100.0 B" := by decide

/-- The single AF_INET entry `netifaces.ifaddresses(iface)[netifaces.AF_INET][0]`:
a Python dict with optional keys addr, netmask, broadcast. -/
structure Ipv4Entry where
  addr : Option String
  netmask : Option String
  broadcast : Option String

/-- The operating-system facilities the scripts consume.  A `.error`
value of `ifaddresses` or `ioctlMtu` models the call raising; `none`
from `sysfsMtu` models the sysfs mtu file being unreadable (IOError).
`ioctlMtu` returns the kernel MTU that a successful SIOCGIFMTU ioctl
writes into the `ifr_mtu` field (a C int at byte offset 16 of the
returned `ifreq` buffer). -/
structure Env where
  platform : String
  interfaces : Except String (List String)
  ifaddresses : String → Except String (Option Ipv4Entry)
  ioctlMtu : String → Except String Nat
  sysfsMtu : String → Option String
  procNetDevExists : Bool
  procNetDev : String

/-- Bytes 16..19 of the ioctl reply buffer: the `ifr_mtu` C int packed
little-endian (Linux on x86 and every other little-endian target). -/
def ifreqMtuBytes (mtu : Nat) : List Nat :=
  [mtu % 256, mtu / 256 % 256, mtu / 256 ^ 2 % 256, mtu / 256 ^ 3 % 256]

/-- `struct.unpack('H', ...)` applied to a two-byte little-endian
buffer. -/
def unpackUShort (bs : List Nat) : Nat :=
  bs.getD 0 0 + 256 * bs.getD 1 0

/-- The MTU value produced by the ioctl path of both `get_mtu`
implementations: slice bytes `[16:18]` of the reply and unpack them as an
unsigned 16-bit integer. -/
def ioctlMtuValue (mtu : Nat) : Nat :=
  unpackUShort ((ifreqMtuBytes mtu).take 2)

/-- Python truthiness of the `mtu` value (`None` and `0` are falsy),
used by `if mtu := get_mtu(interface):` in if_v4.py and `if mtu:` in
if_8v2.py. -/
def optTruthy : Option Int → Bool
  | none => false
  | some m => m != 0

namespace IfV4

/-- The configurable part of if_v4.py's `config` namespace.
`FILTER_INTERFACES` is `None`-or-a-set in Python; `none` models `None`
and the empty list models the (equally falsy) empty set. -/
structure Config where
  FILTER_INTERFACES : Option (List String)

/-- Python truthiness of `config.FILTER_INTERFACES`: `None` and the
empty set are falsy. -/
def filterTruthy : Option (List String) → Bool
  | none => false
  | some l => !l.isEmpty

/-- `config.PROC_NET_DEV` default. -/
def PROC_NET_DEV : String := "/proc/net/dev"

/-- `get_mtu` of if_v4.py (lines 65-79): try the ioctl, on OSError fall
back to reading the sysfs mtu file through `int(...)` (whose tolerance
of surrounding whitespace `trim` models); on IOError or ValueError
return None.  Total by construction: every failure path is caught. -/
def get_mtu (env : Env) (interface : String) : Option Int :=
  match env.ioctlMtu interface with
  | .ok kernelMtu => some (ioctlMtuValue kernelMtu : Nat)
  | .error _ =>
      match env.sysfsMtu interface with
      | none => none
      | some contents => pyInt (pyStrip contents)

/-- Lines 93-94 of if_v4.py: `if mtu := get_mtu(interface): print(MTU)`.
The walrus `if` has no `else`, so a falsy result (None or 0) prints
nothing. -/
def mtu_lines (env : Env) (interface : String) : List String :=
  let mtu := get_mtu env interface
  if optTruthy mtu then ["    MTU: " ++ toString (mtu.getD 0)] else []

/-- `get_interface_info` of if_v4.py (lines 81-96): header, then the
three address lines with `'N/A'` defaults (`addrs.get(AF_INET, [{}])[0]`
yields the empty dict when no IPv4 entry exists) and the MTU line; any
exception inside the `try` is rendered as a single error line. -/
def get_interface_info (env : Env) (interface : String) : List String :=
  (SEPIA ++ interface ++ ":" ++ RESET) ::
    match env.ifaddresses interface with
    | .error e => [RED ++ "    Error: " ++ e ++ RESET]
    | .ok entry =>
        let ipv4 := entry.getD ⟨none, none, none⟩
        ["    inet: " ++ ipv4.addr.getD "N/A",
         "    netmask: " ++ ipv4.netmask.getD "N/A",
         "    broadcast: " ++ ipv4.broadcast.getD "N/A"]
          ++ mtu_lines env interface

/-- The loop of `display_network_info` (lines 102-106): skip interfaces
excluded by a truthy filter, otherwise print that interface's info. -/
def network_loop (cfg : Config) (env : Env) : List String → List String
  | [] => []
  | i :: rest =>
      (if filterTruthy cfg.FILTER_INTERFACES ∧ i ∉ cfg.FILTER_INTERFACES.getD [] then []
       else get_interface_info env i)
        ++ network_loop cfg env rest

/-- The loop body of `display_traffic_stats` (lines 120-133).
`line.split(":")[1]` raises IndexError when the line has no colon; that
statement sits outside the inner `try`, so the error propagates
(`.error`).  Inside the inner `try`, IndexError from `stats[0]`/`stats[8]`
and ValueError from `int(...)` are swallowed (`continue`). -/
def process_line (cfg : Config) (line : String) : Except String (List String) :=
  let parts := pySplitColon line
  match parts[1]? with
  | none => .error "list index out of range"
  | some afterColon =>
      let iface := pyStrip (parts.headD "")
      let stats := pySplitWs afterColon
      if filterTruthy cfg.FILTER_INTERFACES ∧ iface ∉ cfg.FILTER_INTERFACES.getD [] then .ok []
      else
        match stats[0]? with
        | none => .ok []
        | some s0 =>
            match pyInt s0 with
            | none => .ok []
            | some rx =>
                match stats[8]? with
                | none => .ok []
                | some s8 =>
                    match pyInt s8 with
                    | none => .ok []
                    | some tx =>
                        .ok [SEPIA ++ "  " ++ iface ++ ":" ++ RESET,
                             "    RX: " ++ GREY ++ format_bytes rx ++ RESET,
                             "    TX: " ++ GREY ++ format_bytes tx ++ RESET]

/-- The `for line in lines:` loop of `display_traffic_stats` under the
outer `try`: a propagating exception stops the loop and prints the
pipeline-level error line; everything already printed stays printed. -/
def traffic_loop (cfg : Config) : List String → List String
  | [] => []
  | l :: rest =>
      match process_line cfg l with
      | .error e => [RED ++ "Error reading stats: " ++ e ++ RESET]
      | .ok out => out ++ traffic_loop cfg rest

/-- `display_traffic_stats` of if_v4.py (lines 108-136): if the source
path is missing print one message and return; otherwise drop the two
header lines, strip each line and drop blanks, print the section header,
and run the loop. -/
def display_traffic_stats (cfg : Config) (env : Env) : List String :=
  if !env.procNetDevExists then
    [RED ++ "Error: " ++ PROC_NET_DEV ++ " not found" ++ RESET]
  else
    let lines := (((pySplitLines env.procNetDev).drop 2).map pyStrip).filter (fun l => l ≠ "")
    (GREY ++ "\nTraffic Statistics:" ++ RESET) :: traffic_loop cfg lines

/-- `main` of if_v4.py (lines 138-154), returning the printed lines and
the process exit status (0 = fall-through).  The enumeration call
`netifaces.interfaces()` is the only statement inside the `try` that can
raise (every deeper failure is caught further down), and it fires after
the network-section header is printed; `COLOR_OUTPUT` keeps its default
`True`, so `Colors.disable()` never runs. -/
def main (cfg : Config) (env : Env) : List String × Nat :=
  if !(pyStartsWith env.platform "linux") then
    ([RED ++ "Error: Linux-only script" ++ RESET], 1)
  else
    match env.interfaces with
    | .error e =>
        ([GREY ++ "Network Interfaces:" ++ RESET, RED ++ "Critical error: " ++ e ++ RESET], 1)
    | .ok ifs =>
        ((GREY ++ "Network Interfaces:" ++ RESET) :: network_loop cfg env ifs
          ++ display_traffic_stats cfg env, 0)

end IfV4

namespace If8v2

/-- `get_mtu` of if_8v2.py (lines 25-33): the ioctl only — there is no
sysfs fallback in this draft.  On OSError it prints a diagnostic and
returns None; the pair is (returned value, printed lines). -/
def get_mtu (env : Env) (interface : String) : Option Int × List String :=
  match env.ioctlMtu interface with
  | .ok kernelMtu => (some (ioctlMtuValue kernelMtu : Nat), [])
  | .error e =>
      (none, ["Error retrieving MTU for interface \x27" ++ interface ++ "\x27: " ++ e])

/-- Lines 49-53 of if_8v2.py: `if mtu:` prints the MTU, `else` prints the
sentinel; a falsy `mtu` (None or 0) takes the `else` branch. -/
def mtu_render (mtu : Option Int) : List String :=
  if optTruthy mtu then ["    MTU: " ++ toString (mtu.getD 0)]
  else ["    MTU: Unable to retrieve"]

/-- `get_interface_info` of if_8v2.py (lines 35-56): header, the three
address lines with `'N/A'` defaults, the MTU diagnostic-plus-line; any
exception inside the `try` is rendered as a per-interface error line. -/
def get_interface_info (env : Env) (interface : String) : List String :=
  (SEPIA ++ interface ++ ":" ++ RESET) ::
    match env.ifaddresses interface with
    | .error e => ["    Error retrieving interface information: " ++ e]
    | .ok entry =>
        let ipv4 := entry.getD ⟨none, none, none⟩
        ["    inet: " ++ ipv4.addr.getD "N/A",
         "    netmask: " ++ ipv4.netmask.getD "N/A",
         "    broadcast: " ++ ipv4.broadcast.getD "N/A"]
          ++ (get_mtu env interface).2
          ++ mtu_render (get_mtu env interface).1

/-- Lines 102-104 of if_8v2.py: the per-interface entry of the traffic
report; a counter of exactly 0 renders as the `No traffic` marker in
place of the formatted size. -/
def render_entry (iface : String) (rx tx : Int) : List String :=
  [SEPIA ++ "  " ++ iface ++ ":" ++ RESET,
   "    RX: " ++ (if rx = 0 then GREY ++ "No traffic" else GREY ++ format_bytes rx) ++ RESET,
   "    TX: " ++ (if tx = 0 then GREY ++ "No traffic" else GREY ++ format_bytes tx) ++ RESET]

/-- The loop body of `display_traffic_stats` of if_8v2.py (lines 79-104):
skip blank lines, skip lines without a colon, skip lines with fewer than
9 fields after the colon, print a diagnostic for non-numeric rx/tx
fields, and otherwise render the entry.  (`int(stats[0])` runs first, so
its ValueError also skips `int(stats[8])` — observably the same
diagnostic.) -/
def process_line (line : String) : List String :=
  if pyStrip line = "" then []
  else
    let parts := pySplitColon line
    if parts.length < 2 then []
    else
      let iface := pyStrip (parts.headD "")
      let stats := pySplitWs (parts.getD 1 "")
      if stats.length < 9 then []
      else
        match pyInt (stats.getD 0 ""), pyInt (stats.getD 8 "") with
        | some rx, some tx => render_entry iface rx tx
        | _, _ => ["Skipping invalid stats for interface: " ++ iface]

/-- The `for line in lines[2:]:` loop of if_8v2.py: every branch of the
body `continue`s, so each line contributes its own output
independently. -/
def traffic_loop : List String → List String
  | [] => []
  | l :: rest => process_line l ++ traffic_loop rest

/-- `display_traffic_stats` of if_8v2.py (lines 67-107): if the source
path is missing print one message and return; otherwise skip the two
header lines and loop over the rest (readlines-style line splitting;
the loop body itself skips blank lines). -/
def display_traffic_stats (env : Env) : List String :=
  if !env.procNetDevExists then
    ["Unable to read /proc/net/dev. Make sure you are running this on a Linux system."]
  else
    (GREY ++ "\nTraffic Statistics:" ++ RESET)
      :: traffic_loop ((pySplitLines env.procNetDev).drop 2)

end If8v2

/-- The unit index produced by the format loop never exceeds the index it
started from plus the available fuel. -/
lemma format_bytes_units_le (fuel : Nat) (size : ℤ) (i : Nat) :
    format_bytes_units fuel size i ≤ i + fuel := by
  induction fuel generalizing i with
  | zero => simp [format_bytes_units]
  | succ n ih =>
      rw [format_bytes_units]
      split
      · exact (ih (i + 1)).trans (by omega)
      · omega

/-- Indexing the unit list within bounds yields a member. -/
lemma byteUnits_getD_mem (j : Nat) (hj : j ≤ 4) : BYTE_UNITS.getD j "" ∈ BYTE_UNITS := by
  interval_cases j <;> decide

/-- Half-to-even rounding of a nonnegative fraction is nonnegative. -/
lemma rndFrac_nonneg (num den : ℤ) (hn : 0 ≤ num) (hd : 0 < den) : 0 ≤ rndFrac num den := by
  have hf : 0 ≤ num.fdiv den := Int.fdiv_nonneg hn hd.le
  simp only [rndFrac]
  split
  · exact hf
  · split
    · omega
    · split <;> omega

/-- Claim C1: for every non-negative integer b, format_bytes b is a
number with exactly one fractional digit, then a space, then a unit from
the ordered list B, KiB, MiB, GiB, TiB; format_bytes 0 = "0.0 B",
format_bytes 1023 = "1023.0 B", format_bytes 1024 = "1.0 KiB",
format_bytes 1536 = "1.5 KiB", format_bytes (1024 ^ 4) = "1.0 TiB", and
format_bytes (1024 ^ 5) = "1024.0 TiB" — the ladder stops at TiB even
though the value still exceeds 1024. -/
theorem claim_C1 :
    (∀ b : Nat, ∃ n d : Nat, d < 10 ∧ ∃ u, u ∈ BYTE_UNITS ∧
        format_bytes (b : ℤ) = toString n ++ "." ++ toString d ++ " " ++ u)
    ∧ format_bytes 0 = "0.0 B"
    ∧ format_bytes 1023 = "1023.0 B"
    ∧ format_bytes 1024 = "1.0 KiB"
    ∧ format_bytes 1536 = "1.5 KiB"
    ∧ format_bytes (1024 ^ 4) = "1.0 TiB"
    ∧ format_bytes (1024 ^ 5) = "1024.0 TiB" := by
  refine ⟨?_, by decide, by decide, by decide, by decide, by decide, by decide⟩
  intro b
  simp only [format_bytes]
  set i := format_bytes_units (BYTE_UNITS.length - 1) ((b : Nat) : ℤ) 0 with hi
  have hile : i ≤ 4 := by
    have h := format_bytes_units_le (BYTE_UNITS.length - 1) ((b : Nat) : ℤ) 0
    simpa [BYTE_UNITS] using h
  have ht : 0 ≤ rndFrac (10 * ((b : Nat) : ℤ)) (1024 ^ i) :=
    rndFrac_nonneg _ _ (by positivity) (by positivity)
  refine ⟨(rndFrac (10 * ((b : Nat) : ℤ)) (1024 ^ i)).natAbs / 10,
          (rndFrac (10 * ((b : Nat) : ℤ)) (1024 ^ i)).natAbs % 10,
          Nat.mod_lt _ (by norm_num), BYTE_UNITS.getD i "", byteUnits_getD_mem i hile, ?_⟩
  simp only [fmtTenths]
  rw [if_neg (by omega)]
  rfl

/-- Claim C2: the traffic parser skips the two header lines and, for a
data line of the shape name-colon-fields, takes the name as the text left
of the first colon trimmed, the receive total as whitespace token 0 after
the colon and the transmit total as token 8; on the statistics table
whose data line is "  eth0: 100 0 0 0 0 0 0 0 200 0 0 0 0 0 0 0" it
yields receive 100 and transmit 200 for eth0. -/
theorem claim_C2 :
    (∀ line name fields rx tx,
        pyStrip line ≠ "" →
        pySplitColon line = [name, fields] →
        9 ≤ (pySplitWs fields).length →
        pyInt ((pySplitWs fields).getD 0 "") = some rx →
        pyInt ((pySplitWs fields).getD 8 "") = some tx →
        If8v2.process_line line = If8v2.render_entry (pyStrip name) rx tx)
    ∧ (∀ env : Env, env.procNetDevExists = true →
        env.procNetDev =
          "Inter-|   Receive                  |  Transmit\n face |bytes    packets|bytes    packets\n  eth0: 100 0 0 0 0 0 0 0 200 0 0 0 0 0 0 0\n" →
        If8v2.display_traffic_stats env =
          [GREY ++ "\nTraffic Statistics:" ++ RESET,
           SEPIA ++ "  eth0:" ++ RESET,
           "    RX: " ++ GREY ++ "100.0 B" ++ RESET,
           "    TX: " ++ GREY ++ "200.0 B" ++ RESET]) := by
  constructor
  · intro line name fields rx tx htrim hsplit hlen h0 h8
    simp only [If8v2.process_line, hsplit]
    rw [if_neg htrim]
    simp only [List.length_cons, List.length_nil, List.headD, List.getD_cons_succ,
      List.getD_cons_zero]
    rw [if_neg (by omega), if_neg (by omega)]
    simp only [List.getD_eq_getElem?_getD] at h0 h8
    simp [h0, h8]
  · intro env h1 h2
    simp only [If8v2.display_traffic_stats, h1, h2]
    decide

/-- Claim C2 witness: the parser at the example data line. -/
theorem claim_C2_witness :
    If8v2.process_line "  eth0: 100 0 0 0 0 0 0 0 200 0 0 0 0 0 0 0" =
      If8v2.render_entry "eth0" 100 200 := by
  rw [claim_C2.1 "  eth0: 100 0 0 0 0 0 0 0 200 0 0 0 0 0 0 0" "  eth0"
    " 100 0 0 0 0 0 0 0 200 0 0 0 0 0 0 0" 100 200 (by decide) (by decide) (by decide)
    (by decide) (by decide)]
  decide

/-- Claim C3 counterexample: in if_v4.py's traffic-statistics output an
entry whose counters are exactly 0 is rendered as "0.0 B" — the "No
traffic" marker appears nowhere. -/
theorem claim_C3_counterexample :
    IfV4.display_traffic_stats ⟨none⟩
      ⟨"linux", .ok [], fun _ => .ok none, fun _ => .error "", fun _ => none, true,
        "h1\nh2\n  eth0: 0 0 0 0 0 0 0 0 0 0 0 0 0 0 0 0\n"⟩ =
      [GREY ++ "\nTraffic Statistics:" ++ RESET,
       SEPIA ++ "  eth0:" ++ RESET,
       "    RX: " ++ GREY ++ "0.0 B" ++ RESET,
       "    TX: " ++ GREY ++ "0.0 B" ++ RESET] := by
  decide

/-- Claim C3 (amended): in the traffic-statistics output of if_8.py and
if_8v2.py a receive or transmit counter of exactly 0 renders as the
literal "No traffic" marker; if_v4.py instead renders it as "0.0 B". -/
theorem claim_C3 :
    (∀ iface tx, (If8v2.render_entry iface 0 tx).getD 1 "" =
        "    RX: " ++ GREY ++ "No traffic" ++ RESET)
    ∧ (∀ iface rx, (If8v2.render_entry iface rx 0).getD 2 "" =
        "    TX: " ++ GREY ++ "No traffic" ++ RESET) :=
  ⟨fun _ _ => rfl, fun _ _ => rfl⟩

/-- Claim C4 counterexample: in if_v4.py a statistics line without a
colon raises IndexError outside the inner try, so the pipeline-level
handler fires and the following, perfectly valid eth0 line — which the
second conjunct shows would otherwise be rendered — is lost. -/
theorem claim_C4_counterexample :
    IfV4.display_traffic_stats ⟨none⟩
      ⟨"linux", .ok [], fun _ => .ok none, fun _ => .error "", fun _ => none, true,
        "h1\nh2\njunk\n  eth0: 100 0 0 0 0 0 0 0 200 0 0 0 0 0 0 0\n"⟩ =
      [GREY ++ "\nTraffic Statistics:" ++ RESET,
       RED ++ "Error reading stats: list index out of range" ++ RESET]
    ∧ IfV4.display_traffic_stats ⟨none⟩
      ⟨"linux", .ok [], fun _ => .ok none, fun _ => .error "", fun _ => none, true,
        "h1\nh2\n  eth0: 100 0 0 0 0 0 0 0 200 0 0 0 0 0 0 0\n"⟩ =
      [GREY ++ "\nTraffic Statistics:" ++ RESET,
       SEPIA ++ "  eth0:" ++ RESET,
       "    RX: " ++ GREY ++ "100.0 B" ++ RESET,
       "    TX: " ++ GREY ++ "200.0 B" ++ RESET] := by
  constructor <;> decide

/-- Claim C4 (amended): in if_8v2.py a malformed statistics line — no
colon, fewer than 9 tokens after the colon, or a non-numeric token 0 or
8 — is skipped without raising (with a diagnostic only in the
non-numeric case) and each line's output is independent of the others;
in if_v4.py short or non-numeric lines are likewise skipped (silently),
but a line without a colon aborts the rest of the table. -/
theorem claim_C4 :
    (∀ line, (pySplitColon line).length < 2 → If8v2.process_line line = [])
    ∧ (∀ line name fields, pyStrip line ≠ "" → pySplitColon line = [name, fields] →
        (pySplitWs fields).length < 9 → If8v2.process_line line = [])
    ∧ (∀ line name fields, pyStrip line ≠ "" → pySplitColon line = [name, fields] →
        9 ≤ (pySplitWs fields).length →
        (pyInt ((pySplitWs fields).getD 0 "") = none ∨
          pyInt ((pySplitWs fields).getD 8 "") = none) →
        If8v2.process_line line = ["Skipping invalid stats for interface: " ++ pyStrip name])
    ∧ (∀ l rest, If8v2.traffic_loop (l :: rest) = If8v2.process_line l ++ If8v2.traffic_loop rest)
    ∧ (∀ cfg line name fields, pySplitColon line = [name, fields] →
        (pySplitWs fields).length < 9 → IfV4.process_line cfg line = .ok []) := by
  refine ⟨?_, ?_, ?_, fun l rest => rfl, ?_⟩
  · intro line h
    by_cases htrim : pyStrip line = ""
    · simp [If8v2.process_line, htrim]
    · simp only [If8v2.process_line]
      rw [if_neg htrim, if_pos h]
  · intro line name fields htrim hsplit hlen
    simp only [If8v2.process_line, hsplit]
    rw [if_neg htrim]
    simp only [List.length_cons, List.length_nil, List.headD, List.getD_cons_succ,
      List.getD_cons_zero]
    rw [if_neg (by omega), if_pos hlen]
  · intro line name fields htrim hsplit hlen hbad
    simp only [If8v2.process_line, hsplit]
    rw [if_neg htrim]
    simp only [List.length_cons, List.length_nil, List.headD, List.getD_cons_succ,
      List.getD_cons_zero]
    rw [if_neg (by omega), if_neg (by omega)]
    rcases hbad with h0 | h8
    · simp only [List.getD_eq_getElem?_getD] at h0
      simp [h0]
    · simp only [List.getD_eq_getElem?_getD] at h8
      rcases ha : pyInt ((pySplitWs fields)[0]?.getD "") with _ | rx <;> simp [ha, h8]
  · intro cfg line name fields hsplit hlen
    have h8 : (pySplitWs fields)[8]? = none := List.getElem?_eq_none (by omega)
    simp only [IfV4.process_line, hsplit, List.getElem?_cons_succ, List.getElem?_cons_zero,
      List.headD]
    split
    · rfl
    · rcases h0 : (pySplitWs fields)[0]? with _ | s0
      · simp [h0]
      · rcases hp : pyInt s0 with _ | rx
        · simp [h0, hp]
        · simp [h0, hp, h8]

/-- Claim C4 witness: the three malformed shapes at concrete lines. -/
theorem claim_C4_witness :
    If8v2.process_line "junk" = []
    ∧ If8v2.process_line "eth0: 1 2 3 4 5" = []
    ∧ If8v2.process_line "eth0: a 0 0 0 0 0 0 0 0" =
        ["Skipping invalid stats for interface: eth0"]
    ∧ IfV4.process_line ⟨none⟩ "eth0: 1 2 3 4 5" = .ok [] := by
  refine ⟨claim_C4.1 "junk" (by decide),
    claim_C4.2.1 "eth0: 1 2 3 4 5" "eth0" " 1 2 3 4 5" (by decide) (by decide) (by decide),
    ?_,
    claim_C4.2.2.2.2 ⟨none⟩ "eth0: 1 2 3 4 5" "eth0" " 1 2 3 4 5" (by decide) (by decide)⟩
  rw [claim_C4.2.2.1 "eth0: a 0 0 0 0 0 0 0 0" "eth0" " a 0 0 0 0 0 0 0 0" (by decide)
    (by decide) (by decide) (Or.inl (by decide))]
  decide

/-- Claim C5 counterexample: in if_v4.py, when the ioctl and the sysfs
read both fail the interface report carries no MTU line at all — in
particular no "unable to retrieve" sentinel (get_mtu returns None and the
walrus `if` prints nothing). -/
theorem claim_C5_counterexample :
    IfV4.get_interface_info
      ⟨"linux", .ok [], fun _ => .ok none, fun _ => .error "EPERM", fun _ => none, true, ""⟩
      "eth0" =
      [SEPIA ++ "eth0:" ++ RESET, "    inet: N/A", "    netmask: N/A", "    broadcast: N/A"] := by
  decide

/-- Claim C5 (amended): if_v4.py's MTU resolution tries the ioctl first
and falls back to the sysfs mtu file only when the ioctl fails; a sysfs
content of "1500" then resolves to 1500; when both methods fail, get_mtu
returns None without raising, and if_v4.py omits the MTU line entirely
rather than printing an "unable to retrieve" sentinel (that sentinel
exists only in if_8v2.py, whose get_mtu has no sysfs fallback). -/
theorem claim_C5 :
    (∀ env i k, env.ioctlMtu i = .ok k →
        IfV4.get_mtu env i = some (ioctlMtuValue k : Nat))
    ∧ (∀ env i e, env.ioctlMtu i = .error e → env.sysfsMtu i = some "1500" →
        IfV4.get_mtu env i = some 1500)
    ∧ (∀ env i e, env.ioctlMtu i = .error e → env.sysfsMtu i = none →
        IfV4.get_mtu env i = none ∧ IfV4.mtu_lines env i = []) := by
  refine ⟨?_, ?_, ?_⟩
  · intro env i k h
    simp [IfV4.get_mtu, h]
  · intro env i e h1 h2
    simp only [IfV4.get_mtu, h1, h2]
    decide
  · intro env i e h1 h2
    have hm : IfV4.get_mtu env i = none := by simp [IfV4.get_mtu, h1, h2]
    exact ⟨hm, by simp [IfV4.mtu_lines, hm, optTruthy]⟩

/-- Claim C5 witness: the three get_mtu paths at concrete
environments. -/
theorem claim_C5_witness :
    IfV4.get_mtu
      ⟨"linux", .ok [], fun _ => .ok none, fun _ => .ok 1500, fun _ => none, true, ""⟩
      "eth0" = some 1500
    ∧ IfV4.get_mtu
      ⟨"linux", .ok [], fun _ => .ok none, fun _ => .error "EPERM", fun _ => some "1500", true, ""⟩
      "eth0" = some 1500
    ∧ IfV4.get_mtu
      ⟨"linux", .ok [], fun _ => .ok none, fun _ => .error "EPERM", fun _ => none, true, ""⟩
      "eth0" = none := by
  refine ⟨?_, claim_C5.2.1 _ "eth0" "EPERM" rfl rfl, (claim_C5.2.2 _ "eth0" "EPERM" rfl rfl).1⟩
  rw [claim_C5.1 _ "eth0" 1500 rfl]
  decide

/-- Claim C6: with the FilterSet restricted to eth0, an interface named
wlan0 — whether in the OS enumeration or on a statistics-table line —
contributes no output lines to either pipeline of if_v4.py. -/
theorem claim_C6 :
    (∀ env pre post,
        IfV4.network_loop ⟨some ["eth0"]⟩ env (pre ++ "wlan0" :: post) =
          IfV4.network_loop ⟨some ["eth0"]⟩ env (pre ++ post))
    ∧ (∀ pre post wl, 2 ≤ (pySplitColon wl).length →
        pyStrip ((pySplitColon wl).headD "") = "wlan0" →
        IfV4.traffic_loop ⟨some ["eth0"]⟩ (pre ++ wl :: post) =
          IfV4.traffic_loop ⟨some ["eth0"]⟩ (pre ++ post)) := by
  constructor
  · intro env pre post
    induction pre with
    | nil =>
        simp only [List.nil_append, IfV4.network_loop]
        rw [if_pos (by decide)]
        rfl
    | cons a pre ih =>
        simp only [List.cons_append, IfV4.network_loop, List.append_eq]
        rw [ih]
  · intro pre post wl hlen hname
    have hskip : IfV4.process_line ⟨some ["eth0"]⟩ wl = .ok [] := by
      simp only [IfV4.process_line, hname]
      split
      · next h1 =>
          rw [List.getElem?_eq_none_iff] at h1
          omega
      · rw [if_pos (by decide)]
    induction pre with
    | nil =>
        simp only [List.nil_append, IfV4.traffic_loop, hskip]
    | cons a pre ih =>
        simp only [List.cons_append, IfV4.traffic_loop, List.append_eq]
        rw [ih]

/-- Claim C6 witness: a lone wlan0 interface and a lone wlan0 statistics
line each produce exactly the output of the empty input. -/
theorem claim_C6_witness :
    IfV4.network_loop ⟨some ["eth0"]⟩
        ⟨"linux", .ok [], fun _ => .ok none, fun _ => .error "", fun _ => none, true, ""⟩
        (["wlan0"] : List String) =
      IfV4.network_loop ⟨some ["eth0"]⟩
        ⟨"linux", .ok [], fun _ => .ok none, fun _ => .error "", fun _ => none, true, ""⟩ []
    ∧ IfV4.traffic_loop ⟨some ["eth0"]⟩ ["wlan0: 5 0 0 0 0 0 0 0 6 0 0 0 0 0 0 0"] =
      IfV4.traffic_loop ⟨some ["eth0"]⟩ [] :=
  ⟨claim_C6.1 _ [] [], claim_C6.2 [] [] "wlan0: 5 0 0 0 0 0 0 0 6 0 0 0 0 0 0 0"
    (by decide) (by decide)⟩

/-- Claim C7: in if_v4.py, an interface with no IPv4 entry reports inet,
netmask and broadcast each as "N/A"; an exception while resolving one
interface becomes a per-interface error line; and each interface's
contribution to the network report is independent of the others, so a
failing interface never suppresses the rest. -/
theorem claim_C7 :
    (∀ env i, env.ifaddresses i = .ok none →
        IfV4.get_interface_info env i =
          [SEPIA ++ i ++ ":" ++ RESET, "    inet: N/A", "    netmask: N/A",
            "    broadcast: N/A"] ++ IfV4.mtu_lines env i)
    ∧ (∀ env i e, env.ifaddresses i = .error e →
        IfV4.get_interface_info env i =
          [SEPIA ++ i ++ ":" ++ RESET, RED ++ "    Error: " ++ e ++ RESET])
    ∧ (∀ cfg env i rest,
        IfV4.network_loop cfg env (i :: rest) =
          (if IfV4.filterTruthy cfg.FILTER_INTERFACES ∧ i ∉ cfg.FILTER_INTERFACES.getD []
           then [] else IfV4.get_interface_info env i)
            ++ IfV4.network_loop cfg env rest) := by
  refine ⟨?_, ?_, fun cfg env i rest => rfl⟩
  · intro env i h
    simp [IfV4.get_interface_info, h]
  · intro env i e h
    simp [IfV4.get_interface_info, h]

/-- Claim C7 witness: a concrete interface with no IPv4 entry, and one
whose lookup raises. -/
theorem claim_C7_witness :
    IfV4.get_interface_info
      ⟨"linux", .ok [], fun _ => .ok none, fun _ => .ok 1500, fun _ => none, true, ""⟩
      "eth0" =
      [SEPIA ++ "eth0:" ++ RESET, "    inet: N/A", "    netmask: N/A", "    broadcast: N/A",
        "    MTU: 1500"]
    ∧ IfV4.get_interface_info
      ⟨"linux", .ok [], fun _ => .error "boom", fun _ => .ok 1500, fun _ => none, true, ""⟩
      "eth0" =
      [SEPIA ++ "eth0:" ++ RESET, RED ++ "    Error: boom" ++ RESET] := by
  constructor
  · rw [claim_C7.1 _ "eth0" rfl]
    decide
  · exact claim_C7.2.1 _ "eth0" "boom" rfl

/-- Claim C8: when the platform check passes, enumeration succeeds, and
the statistics source path is missing, if_v4.py's traffic pipeline
contributes exactly one explanatory line, the network pipeline still
runs, and the process exits 0. -/
theorem claim_C8 :
    ∀ cfg env ifs, pyStartsWith env.platform "linux" = true →
      env.interfaces = .ok ifs → env.procNetDevExists = false →
      IfV4.main cfg env =
        ((GREY ++ "Network Interfaces:" ++ RESET) :: IfV4.network_loop cfg env ifs
          ++ [RED ++ "Error: " ++ IfV4.PROC_NET_DEV ++ " not found" ++ RESET], 0) := by
  intro cfg env ifs hp hi hd
  simp [IfV4.main, IfV4.display_traffic_stats, hp, hi, hd]

/-- Claim C8 witness: a concrete Linux environment with no
/proc/net/dev. -/
theorem claim_C8_witness :
    IfV4.main ⟨none⟩
      ⟨"linux", .ok [], fun _ => .ok none, fun _ => .error "", fun _ => none, false, ""⟩ =
      ([GREY ++ "Network Interfaces:" ++ RESET,
        RED ++ "Error: /proc/net/dev not found" ++ RESET], 0) := by
  rw [claim_C8 ⟨none⟩ _ [] (by decide) rfl rfl]
  decide

/-- The two consumed reply bytes recover the kernel MTU modulo 2^16. -/
lemma ioctlMtuValue_eq (m : Nat) : ioctlMtuValue m = m % 65536 := by
  show m % 256 + 256 * (m / 256 % 256) = m % 65536
  omega

/-- Claim C9: the ioctl path unpacks only bytes 16-17 of the kernel
reply as an unsigned 16-bit integer, so the MTU it reports equals the
kernel MTU modulo 2^16, always lies below 65536, and a kernel MTU of
65536 comes out as 0; both get_mtu implementations report exactly this
value whenever the ioctl succeeds. -/
theorem claim_C9 :
    (∀ m : Nat, ioctlMtuValue m = m % 65536)
    ∧ (∀ m : Nat, ioctlMtuValue m < 65536)
    ∧ ioctlMtuValue 65536 = 0
    ∧ (∀ env i k, env.ioctlMtu i = .ok k →
        IfV4.get_mtu env i = some ((ioctlMtuValue k : Nat) : Int)
        ∧ If8v2.get_mtu env i = (some ((ioctlMtuValue k : Nat) : Int), ([] : List String))) := by
  refine ⟨ioctlMtuValue_eq, ?_, by decide, ?_⟩
  · intro m
    rw [ioctlMtuValue_eq]
    omega
  · intro env i k h
    exact ⟨by simp [IfV4.get_mtu, h], by simp [If8v2.get_mtu, h]⟩

/-- Claim C9 witness: a kernel MTU of 65536 (the Linux loopback default)
is reported as 0 through the ioctl path of both drafts. -/
theorem claim_C9_witness :
    IfV4.get_mtu
      ⟨"linux", .ok [], fun _ => .ok none, fun _ => .ok 65536, fun _ => none, true, ""⟩
      "lo" = some 0
    ∧ If8v2.get_mtu
      ⟨"linux", .ok [], fun _ => .ok none, fun _ => .ok 65536, fun _ => none, true, ""⟩
      "lo" = (some 0, []) := by
  have h := claim_C9.2.2.2
    ⟨"linux", .ok [], fun _ => .ok none, fun _ => .ok 65536, fun _ => none, true, ""⟩
    "lo" 65536 rfl
  exact ⟨by rw [h.1]; decide, by rw [h.2]; decide⟩

/-- Claim C10: both drafts branch on the Python truthiness of the
resolved MTU, so an MTU of exactly 0 is rendered like a failed lookup —
if_v4.py prints no MTU line (exactly as for None) and if_8v2.py prints
the "Unable to retrieve" sentinel — and the line "MTU: 0" is never
printed. -/
theorem claim_C10 :
    (∀ env i, IfV4.get_mtu env i = some 0 → IfV4.mtu_lines env i = [])
    ∧ (∀ env i, IfV4.get_mtu env i = none → IfV4.mtu_lines env i = [])
    ∧ If8v2.mtu_render (some 0) = If8v2.mtu_render none
    ∧ If8v2.mtu_render (some 0) = ["    MTU: Unable to retrieve"] := by
  refine ⟨?_, ?_, by decide, by decide⟩
  · intro env i h
    simp [IfV4.mtu_lines, h, optTruthy]
  · intro env i h
    simp [IfV4.mtu_lines, h, optTruthy]

/-- Claim C10 witness: the kernel loopback MTU 65536 reaches the
renderer as 0 and yields no MTU line in if_v4.py. -/
theorem claim_C10_witness :
    IfV4.mtu_lines
      ⟨"linux", .ok [], fun _ => .ok none, fun _ => .ok 65536, fun _ => none, true, ""⟩
      "lo" = []
    ∧ IfV4.mtu_lines
      ⟨"linux", .ok [], fun _ => .ok none, fun _ => .error "EPERM", fun _ => none, true, ""⟩
      "lo" = [] :=
  ⟨claim_C10.1 _ "lo" (by decide), claim_C10.2.1 _ "lo" (by decide)⟩

end PyIfconfig
